import Mathlib

/-!
Verification of the BMC power/USB orchestrator and flashing pipeline of
`src/app/tpi_rs/src/app/bmc_application.rs`, via a shallow embedding.

Machine bytes (`u8`) are modelled as `Nat` with explicit bounds `< 256`;
the Rust bitwise complement `!x` on `u8` is `255 ^^^ x`. The tokio mutex
around the live power state is modelled by sequential state passing; the
outcome of each fallible Pin Controller call is an explicit environment
parameter, and every collaborator call an operation performs is recorded
in an ordered trace.
-/

namespace BmcApplication

/-- Rust `!x` on `u8`: bitwise complement within 8 bits (for `x < 256`). -/
def u8not (x : Nat) : Nat := 255 ^^^ x

/-- The mutable state of `BmcApplication` visible to the claims: the durable
byte stored under `NODE_ENABLED_KEY` in the persistent store, and the
mutex-guarded live `power_state` byte. -/
structure BmcState where
  node_enabled : Nat
  power_state : Nat
deriving DecidableEq

/-- Keys of the persistent store used by the orchestrator (the string
constants `NODE_ENABLED_KEY`, `USB_NODE_KEY`, `USB_ROUTE_KEY`,
`USB_MODE_KEY`). -/
inductive DbKey where
  | node_enabled
  | usb_node
  | usb_route
  | usb_mode
deriving DecidableEq

/-- One observable collaborator call made by `power_node` / `activate_slot`:
persistent-store reads and writes, and Pin Controller operations. -/
inductive Op where
  | dbGet (key : DbKey)
  | dbSet (key : DbKey) (value : Nat)
  | set_atx_power (onb : Bool)
  | set_power_node (old new : Nat)
deriving DecidableEq

/-- Whether an `Op` is a Pin Controller (hardware) operation. -/
def Op.isPin : Op → Bool
  | Op.set_atx_power _ => true
  | Op.set_power_node _ _ => true
  | _ => false

/-- The Pin Controller operations of a trace, in order. -/
def pinOps (t : List Op) : List Op := t.filter Op.isPin

/-- Environment behaviour: whether each kind of Pin Controller call made by
`power_node` succeeds (`set_atx_power` and `set_power_node`). -/
structure HW where
  atxOk : Bool
  powerOk : Bool
deriving DecidableEq

/-- Result of an orchestrator operation: whether it returned `Ok`, the
resulting state, and the ordered trace of collaborator calls it made. -/
structure OpResult where
  ok : Bool
  state : BmcState
  trace : List Op
deriving DecidableEq

/-- `need_atx_change` (bmc_application.rs lines 104-115): `some true` when
going from all-off to some-on, `some false` when going from some-on to
all-off, `none` otherwise. -/
def need_atx_change (current_node_state next_node_state : Nat) : Option Bool :=
  if current_node_state = 0 ∧ 0 < next_node_state then some true
  else if 0 < current_node_state ∧ next_node_state = 0 then some false
  else none

/-- The candidate new power state computed by `power_node` (lines 152-155):
`0` when the requested mask is zero, otherwise
`(power_state & !node_bits) | (node_bits & mask)`. -/
def compute_new_power_state (power_state mask node_bits : Nat) : Nat :=
  if node_bits ≠ 0 then (power_state &&& u8not node_bits) ||| (node_bits &&& mask)
  else 0

/-- Shallow embedding of `power_node` (lines 147-182). `node_bits` stands for
`node.to_bits()`. The store read of `NODE_ENABLED_KEY` is recorded in the
trace; on the early-return path (current state already equals the computed
state) no Pin Controller call is made; otherwise `set_atx_power` is called
first when `need_atx_change` demands it, then `set_power_node`, and the new
state is committed only when both succeed. -/
def power_node (hw : HW) (s : BmcState) (node_bits : Nat) : OpResult :=
  let mask := s.node_enabled
  let power_state := s.power_state
  let new_power_state := compute_new_power_state power_state mask node_bits
  if power_state = new_power_state then
    { ok := true, state := s, trace := [Op.dbGet DbKey.node_enabled] }
  else
    match need_atx_change power_state new_power_state with
    | some onb =>
      if hw.atxOk then
        if hw.powerOk then
          { ok := true, state := { s with power_state := new_power_state },
            trace := [Op.dbGet DbKey.node_enabled, Op.set_atx_power onb,
                      Op.set_power_node power_state new_power_state] }
        else
          { ok := false, state := s,
            trace := [Op.dbGet DbKey.node_enabled, Op.set_atx_power onb,
                      Op.set_power_node power_state new_power_state] }
      else
        { ok := false, state := s,
          trace := [Op.dbGet DbKey.node_enabled, Op.set_atx_power onb] }
    | none =>
      if hw.powerOk then
        { ok := true, state := { s with power_state := new_power_state },
          trace := [Op.dbGet DbKey.node_enabled,
                    Op.set_power_node power_state new_power_state] }
      else
        { ok := false, state := s,
          trace := [Op.dbGet DbKey.node_enabled,
                    Op.set_power_node power_state new_power_state] }

/-- `get_node_power` (lines 117-120): tests the node bit in the live state. -/
def get_node_power (s : BmcState) (node_bits : Nat) : Bool :=
  (s.power_state &&& node_bits) != 0

/-- `activate_slot` (lines 125-137). The `ensure!` on an empty node mask
fails before any collaborator call; otherwise the enabled mask is read,
updated by `(state & !mask) | (bits & mask)` with `bits` the mask itself
when enabling and its complement when disabling, written back, and
`power_node` is invoked for the node. -/
def activate_slot (hw : HW) (s : BmcState) (node_bits : Nat) (onb : Bool) : OpResult :=
  if node_bits = 0 then { ok := false, state := s, trace := [] }
  else
    let mask := node_bits
    let bits := if onb then node_bits else u8not node_bits
    let state1 := (s.node_enabled &&& u8not mask) ||| (bits &&& mask)
    let s1 : BmcState := { s with node_enabled := state1 }
    let r := power_node hw s1 node_bits
    { ok := r.ok, state := r.state,
      trace := Op.dbGet DbKey.node_enabled :: Op.dbSet DbKey.node_enabled state1 :: r.trace }

/-- `toggle_power_states` (lines 61-65): inverts the whole live mask under
the lock and calls `power_node` with the inverted value. The re-acquisition
of the tokio mutex inside `power_node` is modelled sequentially. -/
def toggle_power_states (hw : HW) (s : BmcState) : OpResult :=
  let s1 : BmcState := { s with power_state := u8not s.power_state }
  power_node hw s1 s1.power_state

/-- Startup power reconciliation, `initialize_power` in the source (lines
72-80), named `init_power` here: when the enabled-mask key is readable
(`has_key`), power on the stored enabled set via `power_node`; otherwise
write the default `0` to the store. -/
def init_power (hw : HW) (has_key : Bool) (s : BmcState) : OpResult :=
  if has_key then
    let r := power_node hw s s.node_enabled
    { r with trace := Op.dbGet DbKey.node_enabled :: r.trace }
  else
    { ok := true, state := { s with node_enabled := 0 },
      trace := [Op.dbGet DbKey.node_enabled, Op.dbSet DbKey.node_enabled 0] }

/-- The three Pin Controller operations of startup USB reconciliation. -/
inductive UsbOp where
  | select_usb
  | set_usb_route
  | inner_set_usb_mode
deriving DecidableEq

/-- Environment behaviour for startup USB reconciliation: whether each of
the three pin operations succeeds. -/
structure UsbHW where
  selOk : Bool
  routeOk : Bool
  modeOk : Bool
deriving DecidableEq

/-- Rust `Result::and`: `a.and(b)` keeps the error of `a`, otherwise `b`. -/
def resultAnd (a b : Except UsbOp Unit) : Except UsbOp Unit :=
  match a with
  | Except.error e => Except.error e
  | Except.ok _ => b

/-- Startup USB reconciliation, `initialize_usb_mode` in the source (lines
82-101), named `init_usb_mode` here. The three store reads default on
failure and are not modelled; the three pin operations are each performed
unconditionally and their results combined with `res.and(res2).and(res3)`.
An error is identified by the operation that failed. Returns the combined
result and the ordered trace of pin operations attempted. -/
def init_usb_mode (hw : UsbHW) : Except UsbOp Unit × List UsbOp :=
  let res : Except UsbOp Unit :=
    if hw.selOk then Except.ok () else Except.error UsbOp.select_usb
  let res2 : Except UsbOp Unit :=
    if hw.routeOk then Except.ok () else Except.error UsbOp.set_usb_route
  let res3 : Except UsbOp Unit :=
    if hw.modeOk then Except.ok () else Except.error UsbOp.inner_set_usb_mode
  (resultAnd (resultAnd res res2) res3,
   [UsbOp.select_usb, UsbOp.set_usb_route, UsbOp.inner_set_usb_mode])

/-- `FlashStatus` (lines 313-323); the `FlashingError` payload of the
`Error` variant is abstracted away. -/
inductive FlashStatus where
  | Idle
  | Progress (read_percent est_minutes est_seconds : Nat)
  | Error
  | Done
deriving DecidableEq

/-- The message strings assigned by `flash_node` (lines 215-304), one
constructor per `format!` / `String::from` literal in source order;
`empty` is the initial `String::new()` and `done` the final literal
string sent at lines 297-298. -/
inductive FlashMessage where
  | empty
  | poweringOffNode
  | prerequisiteSettingsToggled
  | checkingUsbDevice
  | rebootingToMsd
  | checkingDeviceFile
  | writingImage
  | verifyingChecksum
  | flashingSuccessful
  | done
deriving DecidableEq

/-- `FlashProgress` (lines 325-329). -/
structure FlashProgress where
  status : FlashStatus
  message : FlashMessage
deriving DecidableEq

/-- `u64::MAX`. -/
def u64max : Nat := 2 ^ 64 - 1

/-- The sequence of `FlashProgress` values sent on the progress channel by
the body of `flash_node` (lines 221-301) on a run where every stage
succeeds, in order. `progress_state` is threaded exactly as the code
mutates it: `status` is assigned once (line 230) to `Progress {
read_percent: 0, est_minutes: u64::MAX, est_seconds: u64::MAX }` and never
reassigned afterwards; only `message` changes between sends. Messages sent
internally by the external helpers `write_to_device` and `verify_checksum`
are not included; the send at lines 297-298 is chronologically the last
message on the channel in either case. -/
def flash_node_success_sends : List FlashProgress :=
  let p0 : FlashProgress := { status := FlashStatus.Idle, message := FlashMessage.empty }
  let p1 : FlashProgress :=
    { p0 with message := FlashMessage.poweringOffNode,
              status := FlashStatus.Progress 0 u64max u64max }
  let p2 := { p1 with message := FlashMessage.prerequisiteSettingsToggled }
  let p3 := { p2 with message := FlashMessage.checkingUsbDevice }
  let p4 := { p3 with message := FlashMessage.rebootingToMsd }
  let p5 := { p4 with message := FlashMessage.checkingDeviceFile }
  let p6 := { p5 with message := FlashMessage.writingImage }
  let p7 := { p6 with message := FlashMessage.verifyingChecksum }
  let p8 := { p7 with message := FlashMessage.flashingSuccessful }
  let p9 := { p8 with message := FlashMessage.done }
  [p1, p2, p3, p4, p5, p6, p7, p8, p9]

/-- The §3 data-model invariant: `live_power_state & ~power_enabled_mask
== 0`. -/
def power_invariant (s : BmcState) : Prop :=
  s.power_state &&& u8not s.node_enabled = 0

instance (s : BmcState) : Decidable (power_invariant s) :=
  inferInstanceAs (Decidable (s.power_state &&& u8not s.node_enabled = 0))

/-! Bit-level algebra for bytes (`Nat` values below 256). -/

theorem testBit_255 (i : Nat) : (255 : Nat).testBit i = decide (i < 8) := by
  have h : (255 : Nat) = 2 ^ 8 - 1 := rfl
  rw [h, Nat.testBit_two_pow_sub_one]

theorem testBit_255_lo (i : Nat) (hi : i < 8) : (255 : Nat).testBit i = true := by
  rw [testBit_255]
  simp [hi]

theorem testBit_high (x i : Nat) (hx : x < 256) (hi : 8 ≤ i) : x.testBit i = false :=
  Nat.testBit_eq_false_of_lt
    (lt_of_lt_of_le hx (Nat.pow_le_pow_right (by omega) hi : (2 : Nat) ^ 8 ≤ 2 ^ i))

theorem u8not_lt (x : Nat) (hx : x < 256) : u8not x < 256 := by
  have h : (255 : Nat) ^^^ x < 2 ^ 8 := Nat.xor_lt_two_pow (by norm_num) (by omega)
  simpa [u8not] using h

theorem u8not_u8not (x : Nat) : u8not (u8not x) = x := by
  simp only [u8not, ← Nat.xor_assoc, Nat.xor_self, Nat.zero_xor]

theorem u8not_and_self (x : Nat) (hx : x < 256) : u8not x &&& x = 0 := by
  apply Nat.eq_of_testBit_eq
  intro i
  rcases Nat.lt_or_ge i 8 with hi | hi
  · simp only [u8not, Nat.testBit_land, Nat.testBit_xor, Nat.zero_testBit, testBit_255_lo i hi]
    cases h : x.testBit i <;> simp [h]
  · simp [Nat.testBit_land, testBit_high x i hx hi]

theorem and_u8not_self (x : Nat) (hx : x < 256) : x &&& u8not x = 0 := by
  rw [Nat.and_comm]
  exact u8not_and_self x hx

theorem or_and_right (a b c : Nat) : (a ||| b) &&& c = (a &&& c) ||| (b &&& c) := by
  apply Nat.eq_of_testBit_eq
  intro i
  simp only [Nat.testBit_land, Nat.testBit_lor, Bool.and_or_distrib_right]

theorem u8not_and (x y : Nat) (hx : x < 256) (hy : y < 256) :
    u8not (x &&& y) = u8not x ||| u8not y := by
  apply Nat.eq_of_testBit_eq
  intro i
  rcases Nat.lt_or_ge i 8 with hi | hi
  · simp only [u8not, Nat.testBit_xor, Nat.testBit_land, Nat.testBit_lor, testBit_255_lo i hi]
    cases h : x.testBit i <;> cases h2 : y.testBit i <;> simp [h, h2]
  · simp only [u8not, Nat.testBit_xor, Nat.testBit_land, Nat.testBit_lor,
      testBit_high x i hx hi, testBit_high y i hy hi, testBit_high 255 i (by omega) hi]
    simp

theorem u8not_or (x y : Nat) (hx : x < 256) (hy : y < 256) :
    u8not (x ||| y) = u8not x &&& u8not y := by
  apply Nat.eq_of_testBit_eq
  intro i
  rcases Nat.lt_or_ge i 8 with hi | hi
  · simp only [u8not, Nat.testBit_xor, Nat.testBit_land, Nat.testBit_lor, testBit_255_lo i hi]
    cases h : x.testBit i <;> cases h2 : y.testBit i <;> simp [h, h2]
  · simp only [u8not, Nat.testBit_xor, Nat.testBit_land, Nat.testBit_lor,
      testBit_high x i hx hi, testBit_high y i hy hi, testBit_high 255 i (by omega) hi]
    simp

theorem and_lt_256 (a b : Nat) (ha : a < 256) : a &&& b < 256 :=
  lt_of_le_of_lt Nat.and_le_left ha

theorem or_lt_256 (a b : Nat) (ha : a < 256) (hb : b < 256) : a ||| b < 256 := by
  have h : a ||| b < 2 ^ 8 := Nat.or_lt_two_pow (by omega) (by omega)
  omega

/-! Structural facts about `compute_new_power_state` and `power_node`. -/

theorem compute_and_u8not (L E R : Nat) (hR : R < 256) :
    ((L &&& u8not R) ||| (R &&& E)) &&& u8not R = L &&& u8not R := by
  rw [or_and_right]
  have h1 : (L &&& u8not R) &&& u8not R = L &&& u8not R := by
    rw [Nat.and_assoc, Nat.and_self]
  have h2 : (R &&& E) &&& u8not R = 0 := by
    rw [Nat.and_comm R E, Nat.and_assoc, and_u8not_self R hR, Nat.and_zero]
  rw [h1, h2, Nat.or_zero]

theorem compute_and_mask (L E R : Nat) (hR : R < 256) :
    ((L &&& u8not R) ||| (R &&& E)) &&& R = R &&& E := by
  rw [or_and_right]
  have h1 : (L &&& u8not R) &&& R = 0 := by
    rw [Nat.and_assoc, u8not_and_self R hR, Nat.and_zero]
  have h2 : (R &&& E) &&& R = R &&& E := by
    rw [Nat.and_comm R E, Nat.and_assoc, Nat.and_self, Nat.and_comm E R]
  rw [h1, h2, Nat.zero_or]

theorem compute_idem (L E R : Nat) (hR : R < 256) :
    compute_new_power_state (compute_new_power_state L E R) E R
      = compute_new_power_state L E R := by
  unfold compute_new_power_state
  by_cases h : R = 0
  · simp [h]
  · simp only [h, ne_eq, not_false_eq_true, if_true, if_pos]
    rw [compute_and_u8not L E R hR]

theorem power_node_enabled_eq (hw : HW) (s : BmcState) (r : Nat) :
    (power_node hw s r).state.node_enabled = s.node_enabled := by
  unfold power_node
  dsimp only
  split
  · rfl
  · split
    · split
      · split <;> rfl
      · rfl
    · split <;> rfl

theorem power_node_ok_power (hw : HW) (s : BmcState) (r : Nat)
    (h : (power_node hw s r).ok = true) :
    (power_node hw s r).state.power_state
      = compute_new_power_state s.power_state s.node_enabled r := by
  revert h
  unfold power_node
  dsimp only
  split
  · intro _
    dsimp only
    omega
  · split
    · split
      · split
        · intro _
          rfl
        · intro h
          exact absurd h (by simp)
      · intro h
        exact absurd h (by simp)
    · split
      · intro _
        rfl
      · intro h
        exact absurd h (by simp)

theorem power_node_fail_state (hw : HW) (s : BmcState) (r : Nat)
    (h : (power_node hw s r).ok = false) :
    (power_node hw s r).state = s := by
  revert h
  unfold power_node
  dsimp only
  split
  · intro h
    exact absurd h (by simp)
  · split
    · split
      · split
        · intro h
          exact absurd h (by simp)
        · intro _
          rfl
      · intro _
        rfl
    · split
      · intro h
        exact absurd h (by simp)
      · intro _
        rfl

theorem power_node_noop (hw : HW) (s : BmcState) (r : Nat)
    (h : s.power_state = compute_new_power_state s.power_state s.node_enabled r) :
    power_node hw s r = { ok := true, state := s, trace := [Op.dbGet DbKey.node_enabled] } := by
  unfold power_node
  dsimp only
  rw [if_pos h]

theorem and_with_u8not_right (m x : Nat) (hm : m < 256) : m &&& (x &&& u8not m) = 0 := by
  rw [Nat.and_comm x (u8not m), ← Nat.and_assoc, and_u8not_self m hm, Nat.zero_and]

theorem activate_slot_eq (hw : HW) (s : BmcState) (m : Nat) (onb : Bool) (hm : m ≠ 0) :
    activate_slot hw s m onb
      = { ok := (power_node hw
            ⟨(s.node_enabled &&& u8not m) ||| ((if onb then m else u8not m) &&& m),
             s.power_state⟩ m).ok,
          state := (power_node hw
            ⟨(s.node_enabled &&& u8not m) ||| ((if onb then m else u8not m) &&& m),
             s.power_state⟩ m).state,
          trace := Op.dbGet DbKey.node_enabled
            :: Op.dbSet DbKey.node_enabled
                 ((s.node_enabled &&& u8not m) ||| ((if onb then m else u8not m) &&& m))
            :: (power_node hw
                 ⟨(s.node_enabled &&& u8not m) ||| ((if onb then m else u8not m) &&& m),
                  s.power_state⟩ m).trace } := by
  unfold activate_slot
  rw [if_neg hm]

theorem power_node_preserves_invariant (hw : HW) (s : BmcState) (r : Nat)
    (hE : s.node_enabled < 256) (hinv : power_invariant s) :
    power_invariant (power_node hw s r).state := by
  have hinv' : s.power_state &&& u8not s.node_enabled = 0 := hinv
  cases hok : (power_node hw s r).ok
  · rw [power_node_fail_state hw s r hok]
    exact hinv
  · unfold power_invariant
    rw [power_node_ok_power hw s r hok, power_node_enabled_eq hw s r]
    unfold compute_new_power_state
    by_cases h : r = 0
    · simp [h]
    · rw [if_pos h, or_and_right]
      have h1 : (s.power_state &&& u8not r) &&& u8not s.node_enabled = 0 := by
        rw [Nat.and_comm s.power_state (u8not r), Nat.and_assoc, hinv', Nat.and_zero]
      have h2 : (r &&& s.node_enabled) &&& u8not s.node_enabled = 0 := by
        rw [Nat.and_assoc, and_u8not_self s.node_enabled hE, Nat.and_zero]
      rw [h1, h2, Nat.or_zero]

theorem activate_slot_preserves_invariant (hw : HW) (s : BmcState) (m : Nat) (onb : Bool)
    (hE : s.node_enabled < 256) (hL : s.power_state < 256) (hm : m < 256)
    (hinv : power_invariant s)
    (hok : (activate_slot hw s m onb).ok = true) :
    power_invariant (activate_slot hw s m onb).state := by
  have hinv' : s.power_state &&& u8not s.node_enabled = 0 := hinv
  by_cases h0 : m = 0
  · unfold activate_slot at hok
    rw [if_pos h0] at hok
    exact absurd hok (by simp)
  · rw [activate_slot_eq hw s m onb h0] at hok ⊢
    dsimp only at hok ⊢
    unfold power_invariant
    rw [power_node_ok_power _ _ _ hok, power_node_enabled_eq]
    dsimp only
    unfold compute_new_power_state
    rw [if_pos h0]
    cases onb
    · have hb : (if (false : Bool) = true then m else u8not m) = u8not m := rfl
      rw [hb, u8not_and_self m hm, Nat.or_zero]
      rw [and_with_u8not_right m s.node_enabled hm, Nat.or_zero]
      rw [u8not_and s.node_enabled (u8not m) hE (u8not_lt m hm), u8not_u8not m]
      rw [Nat.and_comm (s.power_state &&& u8not m) (u8not s.node_enabled ||| m)]
      rw [or_and_right]
      have h1 : u8not s.node_enabled &&& (s.power_state &&& u8not m) = 0 := by
        rw [← Nat.and_assoc, Nat.and_comm (u8not s.node_enabled) s.power_state,
          hinv', Nat.zero_and]
      have h2 : m &&& (s.power_state &&& u8not m) = 0 :=
        and_with_u8not_right m s.power_state hm
      rw [h1, h2, Nat.or_zero]
    · have hb : (if (true : Bool) = true then m else u8not m) = m := rfl
      rw [hb, Nat.and_self m]
      have hstate1lt : s.node_enabled &&& u8not m ||| m < 256 :=
        or_lt_256 _ m (and_lt_256 s.node_enabled (u8not m) hE) hm
      have hnot1 : u8not (s.node_enabled &&& u8not m ||| m)
          = u8not s.node_enabled &&& u8not m := by
        rw [u8not_or (s.node_enabled &&& u8not m) m
            (and_lt_256 s.node_enabled (u8not m) hE) hm]
        rw [u8not_and s.node_enabled (u8not m) hE (u8not_lt m hm), u8not_u8not m]
        rw [or_and_right, and_u8not_self m hm, Nat.or_zero]
      have hsecond : m &&& (s.node_enabled &&& u8not m ||| m) = m := by
        rw [Nat.and_comm m (s.node_enabled &&& u8not m ||| m), or_and_right]
        rw [Nat.and_assoc, u8not_and_self m hm, Nat.and_zero, Nat.zero_or, Nat.and_self]
      rw [hsecond, hnot1, or_and_right]
      have h1 : (s.power_state &&& u8not m) &&& (u8not s.node_enabled &&& u8not m) = 0 := by
        rw [← Nat.and_assoc, Nat.and_assoc s.power_state (u8not m) (u8not s.node_enabled),
          Nat.and_comm (u8not m) (u8not s.node_enabled), ← Nat.and_assoc, hinv',
          Nat.zero_and, Nat.zero_and]
      have h2 : m &&& (u8not s.node_enabled &&& u8not m) = 0 :=
        and_with_u8not_right m (u8not s.node_enabled) hm
      rw [h1, h2, Nat.or_zero]

theorem toggle_preserves_invariant (hw : HW) (s : BmcState)
    (hE : s.node_enabled < 256) (hL : s.power_state < 256)
    (hok : (toggle_power_states hw s).ok = true) :
    power_invariant (toggle_power_states hw s).state := by
  unfold toggle_power_states at hok ⊢
  unfold power_invariant
  rw [power_node_ok_power _ _ _ hok, power_node_enabled_eq]
  dsimp only
  unfold compute_new_power_state
  by_cases h : u8not s.power_state = 0
  · rw [h]
    simp
  · rw [if_pos h]
    rw [and_u8not_self (u8not s.power_state) (u8not_lt s.power_state hL), Nat.zero_or]
    rw [Nat.and_assoc, and_u8not_self s.node_enabled hE, Nat.and_zero]

theorem init_power_invariant (hw : HW) (has_key : Bool) (s : BmcState)
    (hE : s.node_enabled < 256) (h0 : s.power_state = 0) :
    power_invariant (init_power hw has_key s).state := by
  cases has_key
  · unfold init_power
    simp only [Bool.false_eq_true, if_false]
    unfold power_invariant
    dsimp only
    rw [h0, Nat.zero_and]
  · unfold init_power
    simp only [if_true]
    exact power_node_preserves_invariant hw s s.node_enabled hE
      (by unfold power_invariant; rw [h0, Nat.zero_and])

/-! Claim theorems. -/

/-- C3: `need_atx_change current next` is `some true` exactly when
`current = 0` and `next > 0`, `some false` exactly when `current > 0` and
`next = 0`, and `none` in the two remaining cases, for all 8-bit inputs. -/
theorem need_atx_change_characterization (c n : Nat) (hc : c < 256) (hn : n < 256) :
    (need_atx_change c n = some true ↔ c = 0 ∧ 0 < n)
    ∧ (need_atx_change c n = some false ↔ 0 < c ∧ n = 0)
    ∧ (need_atx_change c n = none ↔ (c = 0 ∧ n = 0) ∨ (0 < c ∧ 0 < n)) := by
  unfold need_atx_change
  split_ifs with h1 h2 <;> simp_all <;> omega

theorem need_atx_change_characterization_witness :
    (need_atx_change 0 1 = some true ↔ (0 : Nat) = 0 ∧ (0 : Nat) < 1)
    ∧ (need_atx_change 0 1 = some false ↔ (0 : Nat) < 0 ∧ (1 : Nat) = 0)
    ∧ (need_atx_change 0 1 = none ↔ ((0 : Nat) = 0 ∧ (1 : Nat) = 0) ∨ ((0 : Nat) < 0 ∧ (0 : Nat) < 1)) :=
  need_atx_change_characterization 0 1 (by decide) (by decide)

/-- C6: if a Pin Controller operation inside `power_node` fails, the call
surfaces the error and the state (in particular the live power mask) is
left exactly as before the call; the new value is committed only when all
hardware operations succeed. -/
theorem power_node_error_leaves_state (hw : HW) (s : BmcState) (r : Nat)
    (h : (power_node hw s r).ok = false) :
    (power_node hw s r).state = s :=
  power_node_fail_state hw s r h

theorem power_node_error_leaves_state_witness :
    (power_node ⟨false, true⟩ ⟨0, 1⟩ 0).state = ⟨0, 1⟩ :=
  power_node_error_leaves_state ⟨false, true⟩ ⟨0, 1⟩ 0 (by decide)

/-- C7: for a node identity with empty bit mask, `activate_slot` fails for
both values of the activation flag, with an empty collaborator trace (no
persistent-store read or write and no Pin Controller call) and the state
unchanged. -/
theorem activate_slot_empty_mask_rejected (hw : HW) (s : BmcState) (node_bits : Nat)
    (onb : Bool) (h : node_bits = 0) :
    (activate_slot hw s node_bits onb).ok = false
    ∧ (activate_slot hw s node_bits onb).state = s
    ∧ (activate_slot hw s node_bits onb).trace = [] := by
  subst h
  unfold activate_slot
  exact ⟨rfl, rfl, rfl⟩

theorem activate_slot_empty_mask_rejected_witness :
    (activate_slot ⟨true, true⟩ ⟨3, 3⟩ 0 true).ok = false
    ∧ (activate_slot ⟨true, true⟩ ⟨3, 3⟩ 0 true).state = ⟨3, 3⟩
    ∧ (activate_slot ⟨true, true⟩ ⟨3, 3⟩ 0 true).trace = [] :=
  activate_slot_empty_mask_rejected ⟨true, true⟩ ⟨3, 3⟩ 0 true rfl

/-- C9: startup USB reconciliation attempts all three pin operations in
order regardless of earlier failures, and combines their results with
`res.and(res2).and(res3)` into one aggregate result that is `Ok` exactly
when all three succeeded, and otherwise carries the error of the earliest
failing operation. -/
theorem init_usb_mode_attempts_all_and_aggregates (hw : UsbHW) :
    (init_usb_mode hw).2
      = [UsbOp.select_usb, UsbOp.set_usb_route, UsbOp.inner_set_usb_mode]
    ∧ ((init_usb_mode hw).1 = Except.ok ()
        ↔ hw.selOk = true ∧ hw.routeOk = true ∧ hw.modeOk = true)
    ∧ (hw.selOk = false → (init_usb_mode hw).1 = Except.error UsbOp.select_usb)
    ∧ (hw.selOk = true → hw.routeOk = false →
        (init_usb_mode hw).1 = Except.error UsbOp.set_usb_route)
    ∧ (hw.selOk = true → hw.routeOk = true → hw.modeOk = false →
        (init_usb_mode hw).1 = Except.error UsbOp.inner_set_usb_mode) := by
  obtain ⟨a, b, c⟩ := hw
  cases a <;> cases b <;> cases c <;> simp [init_usb_mode, resultAnd]

/-- C4 (code evaluation): on a flashing run in which every stage succeeds,
the final progress message sent by `flash_node` carries the message literal
`Done` but its status is `Progress { read_percent: 0, est_minutes:
u64::MAX, est_seconds: u64::MAX }` — assigned once at line 230 and never
reassigned — and no message with status `FlashStatus.Done` is ever sent. -/
theorem flash_done_message_status :
    flash_node_success_sends.getLast?
      = some ⟨FlashStatus.Progress 0 u64max u64max, FlashMessage.done⟩
    ∧ flash_node_success_sends.all (fun p => p.status != FlashStatus.Done) = true := by
  decide

/-- C10: when `need_atx_change` demands a rail transition, `set_atx_power`
succeeds and `set_power_node` then fails, `power_node` surfaces the error
with the live state unchanged, and its collaborator trace is exactly the
store read, then the rail call, then the failed per-slot call: the rail
transition happens before the per-slot transition and is not rolled back. -/
theorem power_node_atx_not_rolled_back (hw : HW) (s : BmcState) (r : Nat) (onb : Bool)
    (hatx : hw.atxOk = true) (hpow : hw.powerOk = false)
    (hch : need_atx_change s.power_state
        (compute_new_power_state s.power_state s.node_enabled r) = some onb) :
    (power_node hw s r).ok = false
    ∧ (power_node hw s r).state = s
    ∧ (power_node hw s r).trace
        = [Op.dbGet DbKey.node_enabled, Op.set_atx_power onb,
           Op.set_power_node s.power_state
             (compute_new_power_state s.power_state s.node_enabled r)] := by
  have hne : s.power_state ≠ compute_new_power_state s.power_state s.node_enabled r := by
    revert hch
    unfold need_atx_change
    split_ifs with h1 h2
    · intro _
      omega
    · intro _
      omega
    · intro h
      exact absurd h (by simp)
  unfold power_node
  dsimp only
  rw [if_neg hne, hch, hatx, hpow]
  exact ⟨rfl, rfl, rfl⟩

theorem power_node_atx_not_rolled_back_witness :
    (power_node ⟨true, false⟩ ⟨0, 1⟩ 0).ok = false
    ∧ (power_node ⟨true, false⟩ ⟨0, 1⟩ 0).state = ⟨0, 1⟩
    ∧ (power_node ⟨true, false⟩ ⟨0, 1⟩ 0).trace
        = [Op.dbGet DbKey.node_enabled, Op.set_atx_power false, Op.set_power_node 1 0] :=
  power_node_atx_not_rolled_back ⟨true, false⟩ ⟨0, 1⟩ 0 false rfl rfl (by decide)

/-- C5: when the computed new power state equals the current live state,
`power_node` returns success without any Pin Controller call, and after any
successful `power_node` a second call with the same target mask makes no
Pin Controller call (hardware-effect idempotence). -/
theorem power_node_idempotent (hw hw2 : HW) (s : BmcState) (r : Nat)
    (hE : s.node_enabled < 256) (hL : s.power_state < 256) (hr : r < 256) :
    (compute_new_power_state s.power_state s.node_enabled r = s.power_state →
      (power_node hw s r).ok = true ∧ pinOps (power_node hw s r).trace = [])
    ∧ ((power_node hw s r).ok = true →
      pinOps (power_node hw2 (power_node hw s r).state r).trace = []) := by
  constructor
  · intro h
    rw [power_node_noop hw s r h.symm]
    exact ⟨rfl, rfl⟩
  · intro hok
    have he : (power_node hw s r).state.node_enabled = s.node_enabled :=
      power_node_enabled_eq hw s r
    have hp : (power_node hw s r).state.power_state
        = compute_new_power_state s.power_state s.node_enabled r :=
      power_node_ok_power hw s r hok
    have hidem : (power_node hw s r).state.power_state
        = compute_new_power_state (power_node hw s r).state.power_state
            (power_node hw s r).state.node_enabled r := by
      rw [hp, he, compute_idem s.power_state s.node_enabled r hr]
    rw [power_node_noop hw2 _ r hidem]
    rfl

theorem power_node_idempotent_witness :
    (compute_new_power_state 0 3 0 = 0 →
      (power_node ⟨true, true⟩ ⟨3, 0⟩ 0).ok = true
      ∧ pinOps (power_node ⟨true, true⟩ ⟨3, 0⟩ 0).trace = [])
    ∧ ((power_node ⟨true, true⟩ ⟨3, 0⟩ 0).ok = true →
      pinOps (power_node ⟨true, true⟩ (power_node ⟨true, true⟩ ⟨3, 0⟩ 0).state 0).trace = []) :=
  power_node_idempotent ⟨true, true⟩ ⟨true, true⟩ ⟨3, 0⟩ 0 (by decide) (by decide) (by decide)

/-- C1 counterexample: with enabled mask 0, prior live state 1 and the
all-zero requested mask, `power_node` succeeds yet the live bits outside
the request (here all bits) do not keep their prior value: the live state
becomes 0, not 1. -/
theorem power_node_zero_mask_counterexample :
    (power_node ⟨true, true⟩ ⟨0, 1⟩ 0).ok = true
    ∧ (power_node ⟨true, true⟩ ⟨0, 1⟩ 0).state.power_state &&& u8not 0
        ≠ 1 &&& u8not 0 := by
  decide

/-- C1 amended: for a nonzero requested mask `R`, a successful
`power_node R` with enabled mask `E` and prior live state `L` leaves live
bits outside `R` unchanged and sets live bits inside `R` to `R & E`; for
the all-zero requested mask a successful call sets the live state to 0
(explicit full power-off, bypassing the enabled filter). -/
theorem power_node_mask_update (hw : HW) (E L R : Nat)
    (hE : E < 256) (hL : L < 256) (hR : R < 256)
    (hok : (power_node hw ⟨E, L⟩ R).ok = true) :
    (R ≠ 0 →
      (power_node hw ⟨E, L⟩ R).state.power_state &&& u8not R = L &&& u8not R
      ∧ (power_node hw ⟨E, L⟩ R).state.power_state &&& R = R &&& E)
    ∧ (R = 0 → (power_node hw ⟨E, L⟩ R).state.power_state = 0) := by
  have hp := power_node_ok_power hw ⟨E, L⟩ R hok
  dsimp only at hp
  constructor
  · intro hRne
    rw [hp]
    unfold compute_new_power_state
    rw [if_pos hRne]
    exact ⟨compute_and_u8not L E R hR, compute_and_mask L E R hR⟩
  · intro hR0
    rw [hp, hR0]
    unfold compute_new_power_state
    simp

theorem power_node_mask_update_witness :
    ((1 : Nat) ≠ 0 →
      (power_node ⟨true, true⟩ ⟨1, 0⟩ 1).state.power_state &&& u8not 1 = 0 &&& u8not 1
      ∧ (power_node ⟨true, true⟩ ⟨1, 0⟩ 1).state.power_state &&& 1 = 1 &&& 1)
    ∧ ((1 : Nat) = 0 → (power_node ⟨true, true⟩ ⟨1, 0⟩ 1).state.power_state = 0) :=
  power_node_mask_update ⟨true, true⟩ 1 0 1 (by decide) (by decide) (by decide) (by decide)

/-- C8: for a node with nonzero bit mask that is currently enabled in the
durable mask and currently powered in the live state, a successful
`activate_slot node false` leaves `get_node_power node` false and clears
the node bit in the durable enabled mask. -/
theorem activate_slot_off_powers_down (hw : HW) (s : BmcState) (m : Nat)
    (hm : m ≠ 0) (hmb : m < 256) (hE : s.node_enabled < 256) (hL : s.power_state < 256)
    (hen : s.node_enabled &&& m ≠ 0) (hpw : get_node_power s m = true)
    (hok : (activate_slot hw s m false).ok = true) :
    get_node_power (activate_slot hw s m false).state m = false
    ∧ (activate_slot hw s m false).state.node_enabled &&& m = 0 := by
  have hb : (if (false : Bool) = true then m else u8not m) = u8not m := rfl
  rw [activate_slot_eq hw s m false hm, hb] at hok ⊢
  dsimp only at hok ⊢
  have hstate1 : ((s.node_enabled &&& u8not m) ||| (u8not m &&& m)) &&& m = 0 := by
    rw [or_and_right, u8not_and_self m hmb, Nat.zero_and, Nat.or_zero,
      Nat.and_assoc, u8not_and_self m hmb, Nat.and_zero]
  constructor
  · have hp := power_node_ok_power hw
      ⟨(s.node_enabled &&& u8not m) ||| (u8not m &&& m), s.power_state⟩ m hok
    dsimp only at hp
    unfold get_node_power
    rw [hp]
    unfold compute_new_power_state
    rw [if_pos hm, compute_and_mask _ _ m hmb, Nat.and_comm, hstate1]
    rfl
  · have he := power_node_enabled_eq hw
      ⟨(s.node_enabled &&& u8not m) ||| (u8not m &&& m), s.power_state⟩ m
    rw [he]
    exact hstate1

theorem activate_slot_off_powers_down_witness :
    get_node_power (activate_slot ⟨true, true⟩ ⟨1, 1⟩ 1 false).state 1 = false
    ∧ (activate_slot ⟨true, true⟩ ⟨1, 1⟩ 1 false).state.node_enabled &&& 1 = 0 :=
  activate_slot_off_powers_down ⟨true, true⟩ ⟨1, 1⟩ 1 (by decide) (by decide)
    (by decide) (by decide) (by decide) (by decide) (by decide)

/-- C2 counterexample: from the state with enabled mask 1 and live state 1,
which satisfies `live &&& ~enabled = 0`, the call
`activate_slot node1 false` with a failing `set_atx_power` persists the
cleared enabled mask but returns with the node still powered in the live
state: after the call returns (an observation point) the invariant is
violated, so not every operation preserves it. -/
theorem power_invariant_failure_counterexample :
    power_invariant ⟨1, 1⟩
    ∧ (activate_slot ⟨false, false⟩ ⟨1, 1⟩ 1 false).ok = false
    ∧ ¬ power_invariant (activate_slot ⟨false, false⟩ ⟨1, 1⟩ 1 false).state := by
  decide

/-- C2 amended: the invariant `live_power_state &&& ~power_enabled_mask = 0`
is preserved by `power_node` (whether it succeeds or fails), by successful
`activate_slot` and `toggle_power_states` calls, and by startup power
reconciliation from the initial all-off live state; a failing Pin
Controller call inside `activate_slot` or `toggle_power_states` can leave
the invariant violated. -/
theorem power_invariant_preserved (hw : HW) (s : BmcState) (r : Nat) (onb has_key : Bool)
    (hE : s.node_enabled < 256) (hL : s.power_state < 256) (hr : r < 256)
    (hinv : power_invariant s) :
    power_invariant (power_node hw s r).state
    ∧ ((activate_slot hw s r onb).ok = true →
        power_invariant (activate_slot hw s r onb).state)
    ∧ ((toggle_power_states hw s).ok = true →
        power_invariant (toggle_power_states hw s).state)
    ∧ (s.power_state = 0 → power_invariant (init_power hw has_key s).state) :=
  ⟨power_node_preserves_invariant hw s r hE hinv,
   activate_slot_preserves_invariant hw s r onb hE hL hr hinv,
   toggle_preserves_invariant hw s hE hL,
   init_power_invariant hw has_key s hE⟩

theorem power_invariant_preserved_witness :
    power_invariant (power_node ⟨true, true⟩ ⟨1, 0⟩ 1).state
    ∧ ((activate_slot ⟨true, true⟩ ⟨1, 0⟩ 1 true).ok = true →
        power_invariant (activate_slot ⟨true, true⟩ ⟨1, 0⟩ 1 true).state)
    ∧ ((toggle_power_states ⟨true, true⟩ ⟨1, 0⟩).ok = true →
        power_invariant (toggle_power_states ⟨true, true⟩ ⟨1, 0⟩).state)
    ∧ ((0 : Nat) = 0 → power_invariant (init_power ⟨true, true⟩ true ⟨1, 0⟩).state) :=
  power_invariant_preserved ⟨true, true⟩ ⟨1, 0⟩ 1 true true
    (by decide) (by decide) (by decide) (by decide)

end BmcApplication
